import Mathlib

/-!
Verification of the cargo-xcode project-file generator (src/lib.rs).

The definitions below are a shallow embedding of the generator:
  * the cargo-metadata inputs (`Package`, `CargoTarget`, `SemVer`),
  * the SHA-1 based identifier allocator (`make_id`),
  * the target classifier (`xcodeTargetFor`, `project_targets`),
  * the per-target object-graph builder (`products_pbxproj`),
  * the project assembler and serializer (`pbxproj`), and
  * a model of the file-write step (`write_pbxproj_model`).

Machine integers are modelled as `Nat` with explicit reduction mod 2^32,
strings as Lean `String`; all definitions are executable.
-/

set_option maxRecDepth 20000

/-! ## Input data model (cargo metadata, as consumed by the generator) -/

/-- Semantic version of a package, `major.minor.patch`. -/
structure SemVer where
  major : Nat
  minor : Nat
  patch : Nat
deriving DecidableEq, Repr

/-- One cargo target from the metadata: a name, a set of kind strings and
the required feature names. -/
structure CargoTarget where
  name : String
  kind : List String
  required_features : List String
deriving DecidableEq, Repr

/-- The package data the generator consumes: `id` is the unique identity
string (`package.id.repr` in the source), plus display name, version,
manifest path and the ordered target list. -/
structure Package where
  id : String
  name : String
  version : SemVer
  manifest_path : String
  targets : List CargoTarget
deriving DecidableEq, Repr

/-! ## SHA-1 (the `sha1` crate used by `make_id`), over `Nat` bytes/words -/

/-- Rotate a 32-bit word (a `Nat` below 2^32) left by `k` bits. -/
def rotl32 (x k : Nat) : Nat :=
  ((x <<< k) % 4294967296) ||| (x >>> (32 - k))

/-- SHA-1 round function for round `t`. -/
def sha1_f (t b c d : Nat) : Nat :=
  if t < 20 then (b &&& c) ||| ((b ^^^ 4294967295) &&& d)
  else if t < 40 then b ^^^ c ^^^ d
  else if t < 60 then (b &&& c) ||| (b &&& d) ||| (c &&& d)
  else b ^^^ c ^^^ d

/-- SHA-1 round constant for round `t`. -/
def sha1_k (t : Nat) : Nat :=
  if t < 20 then 0x5A827999
  else if t < 40 then 0x6ED9EBA1
  else if t < 60 then 0x8F1BBCDC
  else 0xCA62C1D6

/-- Big-endian decomposition of a 64-bit quantity into 8 bytes. -/
def be8bytes (n : Nat) : List Nat :=
  [n / 2 ^ 56 % 256, n / 2 ^ 48 % 256, n / 2 ^ 40 % 256, n / 2 ^ 32 % 256,
   n / 2 ^ 24 % 256, n / 2 ^ 16 % 256, n / 2 ^ 8 % 256, n % 256]

/-- Big-endian decomposition of a 32-bit word into 4 bytes. -/
def be4bytes (n : Nat) : List Nat :=
  [n / 2 ^ 24 % 256, n / 2 ^ 16 % 256, n / 2 ^ 8 % 256, n % 256]

/-- SHA-1 message padding: append `0x80`, zero-pad to 56 mod 64, then the
bit length as 8 big-endian bytes. -/
def sha1_pad (msg : List Nat) : List Nat :=
  msg ++ [128] ++ List.replicate ((119 - msg.length % 64) % 64) 0
      ++ be8bytes (8 * msg.length)

/-- Split a byte list into 64-byte chunks; the fuel argument (an upper bound
on the number of chunks) makes the recursion structural. -/
def chunks64Go : Nat → List Nat → List (List Nat)
  | 0, _ => []
  | _ + 1, [] => []
  | n + 1, a :: rest => ((a :: rest).take 64) :: chunks64Go n ((a :: rest).drop 64)

/-- Split a byte list into 64-byte chunks. -/
def chunks64 (l : List Nat) : List (List Nat) :=
  chunks64Go l.length l

/-- The 16 initial big-endian 32-bit words of a 64-byte chunk. -/
def sha1_words (chunk : List Nat) : List Nat :=
  (List.range 16).map fun i =>
    (chunk.getD (4 * i) 0) * 16777216 + (chunk.getD (4 * i + 1) 0) * 65536 +
    (chunk.getD (4 * i + 2) 0) * 256 + chunk.getD (4 * i + 3) 0

/-- Extend the 16 words of a chunk to the 80-word message schedule. -/
def sha1_schedule (chunk : List Nat) : List Nat :=
  (List.range 64).foldl
    (fun ws _ =>
      ws ++ [rotl32 ((ws.getD (ws.length - 3) 0) ^^^ (ws.getD (ws.length - 8) 0) ^^^
                     (ws.getD (ws.length - 14) 0) ^^^ (ws.getD (ws.length - 16) 0)) 1])
    (sha1_words chunk)

/-- SHA-1 compression of one 64-byte chunk into the running state. -/
def sha1_compress (h : Nat × Nat × Nat × Nat × Nat) (chunk : List Nat) :
    Nat × Nat × Nat × Nat × Nat :=
  let w := sha1_schedule chunk
  let r := (List.range 80).foldl
    (fun s t =>
      ((rotl32 s.1 5 + sha1_f t s.2.1 s.2.2.1 s.2.2.2.1 + s.2.2.2.2 + sha1_k t +
          w.getD t 0) % 4294967296,
       s.1, rotl32 s.2.1 30, s.2.2.1, s.2.2.2.1))
    (h.1, h.2.1, h.2.2.1, h.2.2.2.1, h.2.2.2.2)
  ((h.1 + r.1) % 4294967296, (h.2.1 + r.2.1) % 4294967296,
   (h.2.2.1 + r.2.2.1) % 4294967296, (h.2.2.2.1 + r.2.2.2.1) % 4294967296,
   (h.2.2.2.2 + r.2.2.2.2) % 4294967296)

/-- SHA-1 digest of a byte sequence: 20 bytes. -/
def sha1 (msg : List Nat) : List Nat :=
  let hs := (chunks64 (sha1_pad msg)).foldl sha1_compress
    (0x67452301, 0xEFCDAB89, 0x98BADCFE, 0x10325476, 0xC3D2E1F0)
  be4bytes hs.1 ++ be4bytes hs.2.1 ++ be4bytes hs.2.2.1 ++ be4bytes hs.2.2.2.1 ++
    be4bytes hs.2.2.2.2

/-- UTF-8 encoding of one scalar value, as the Rust `str::as_bytes` view
would produce for that character. -/
def utf8Char (c : Char) : List Nat :=
  let n := c.toNat
  if n < 128 then [n]
  else if n < 2048 then [192 + n / 64, 128 + n % 64]
  else if n < 65536 then [224 + n / 4096, 128 + n / 64 % 64, 128 + n % 64]
  else [240 + n / 262144, 128 + n / 4096 % 64, 128 + n / 64 % 64, 128 + n % 64]

/-- UTF-8 bytes of a string. -/
def utf8Bytes (s : String) : List Nat :=
  s.data.flatMap utf8Char

/-! ## Identifier allocator (`Generator::make_id`) -/

/-- Uppercase hexadecimal digit for `n < 16`, as `format!` with `X` prints it. -/
def hexChar (n : Nat) : Char :=
  if n < 10 then Char.ofNat (48 + n) else Char.ofNat (55 + n)

/-- The two uppercase hex digits of a byte, as `format!("{:02X}", b)` for `b < 256`. -/
def byteHexChars (b : Nat) : List Char :=
  [hexChar (b / 16), hexChar (b % 16)]

/-- The identifier allocator: SHA-1 over the package identity bytes, the
namespace bytes, a 0 separator byte and the name bytes; the constant prefix
CA60 followed by the first 10 digest bytes in uppercase hex.  Streaming
`update` calls in the source hash exactly this concatenation. -/
def make_id (id_repr kind name : String) : String :=
  let digest := sha1 (utf8Bytes id_repr ++ utf8Bytes kind ++ [0] ++ utf8Bytes name)
  ("CA60") ++ String.mk ((digest.take 10).flatMap byteHexChars)

/-- The allocator as a method of the generator: the seed is the SHA-1 state
over `package.id.repr`, held per package. -/
def generator_make_id (p : Package) (kind name : String) : String :=
  make_id p.id kind name

/-! ## String and path helpers used by the generator -/

/-- Rust `base_name.replace('-', "_")`: every hyphen becomes an underscore. -/
def dashToUnderscore (s : String) : String :=
  String.mk (s.data.map fun c => if c = '-' then '_' else c)

/-- Split a character list at every occurrence of the separator. -/
def splitChar (sep : Char) : List Char → List (List Char)
  | [] => [[]]
  | c :: rest =>
    match splitChar sep rest with
    | [] => if c = sep then [[], []] else [[c]]
    | g :: gs => if c = sep then [] :: g :: gs else (c :: g) :: gs

/-- The normalized path components of a string path, as Rust
`Path::components` yields them for the purposes of `file_name`: split on the
separator, drop empty and `.` components. -/
def pathComponents (s : String) : List String :=
  ((splitChar '/' s.data).map fun g => String.mk g).filter
    fun c => ¬(c = "" ∨ c = ".")

/-- Rust `Path::file_name`: the final normalized component, unless the path
terminates in `..` or has no components. -/
def pathFileName (s : String) : Option String :=
  match (pathComponents s).getLast? with
  | none => none
  | some c => if c = ".." then none else some c

/-- Rust `Path::file_stem` of a plain file name: the part before the last
dot, unless there is no dot or the only dot is the leading character. -/
def fileStem (name : String) : String :=
  let rev := name.data.reverse
  if rev.contains '.' then
    let stemRev := (rev.dropWhile fun c => c ≠ '.').tail
    if stemRev.isEmpty then name else String.mk stemRev.reverse
  else name

/-- The dependency-file name the generator computes:
`Path::new(s).with_extension("d").file_name()`, `none` when the final
`unwrap` in the source would panic (`set_extension` refuses paths without a
file name, and `file_name` then still yields `None`). -/
def depFileName (s : String) : Option String :=
  match pathFileName s with
  | none => none
  | some name => some (fileStem name ++ ".d")

/-- Bool test that `needle` occurs inside `hay` (used to state properties
of the emitted text). -/
def containsSubAux (needle : List Char) : List Char → Bool
  | [] => needle.isEmpty
  | c :: t => needle.isPrefixOf (c :: t) || containsSubAux needle t

/-- String containment: `containsSubstring hay needle` is true when `needle`
occurs contiguously inside `hay`. -/
def containsSubstring (hay needle : String) : Bool :=
  containsSubAux needle.data hay.data

/-- Rust `char::escape_default`, one character. -/
def escapeDefaultChar (c : Char) : List Char :=
  if c = '\t' then ['\\', 't']
  else if c = '\r' then ['\\', 'r']
  else if c = '\n' then ['\\', 'n']
  else if c = '\\' then ['\\', '\\']
  else if c = Char.ofNat 39 then ['\\', Char.ofNat 39]
  else if c = Char.ofNat 34 then ['\\', Char.ofNat 34]
  else if 32 ≤ c.toNat ∧ c.toNat < 127 then [c]
  else '\\' :: 'u' :: Char.ofNat 123 :: (Nat.toDigits 16 c.toNat) ++ [Char.ofNat 125]

/-- Rust `str::escape_default` over a whole string. -/
def escapeDefault (s : String) : String :=
  String.mk (s.data.flatMap escapeDefaultChar)

/-- Take the first `k` characters of a string (used by the write model for
partially written data). -/
def strTake (s : String) (k : Nat) : String :=
  String.mk (s.data.take k)

/-! ## Target classifier (`Generator::project_targets`) -/

/-- The emission descriptor for one recognized (target, kind) pair, the
`XcodeTarget` struct of the source. -/
structure XcodeTarget where
  kind : String
  base_name : String
  cargo_file_name : String
  xcode_product_name : String
  xcode_file_name : String
  compiler_flags : String
  file_type : String
  prod_type : String
  supported_platforms : String
  skip_install : Bool
deriving DecidableEq, Repr

/-- Product-type constant for static libraries. -/
def STATIC_LIB_APPLE_PRODUCT_TYPE : String := "com.apple.product-type.library.static"

/-- Product-type constant for executables. -/
def EXECUTABLE_APPLE_PRODUCT_TYPE : String := "com.apple.product-type.tool"

/-- One generated object: allocator id plus its rendered definition text
(the `XcodeObject` struct; its Rust field `def` is `defn` here since `def`
is a Lean keyword). -/
structure XcodeObject where
  id : String
  defn : String
deriving DecidableEq, Repr

/-- The five accumulators of `products_pbxproj` (the `XcodeSections` struct). -/
structure XcodeSections where
  buildfile : List XcodeObject
  filereference : List XcodeObject
  targets : List XcodeObject
  product_ids : List String
  other : List XcodeObject
deriving DecidableEq, Repr

/-- The per-kind classification match inside `project_targets`:
`required_features` is the already-joined feature string.  Returns `none`
for every kind other than bin, cdylib and staticlib. -/
def xcodeTargetFor (base_name : String) (required_features : String)
    (kind : String) : Option XcodeTarget :=
  let sel : Option (String × String × String × String × String × Bool) :=
    if kind = "bin" then
      some (base_name, base_name, base_name, "compiled.mach-o.executable",
            EXECUTABLE_APPLE_PRODUCT_TYPE, false)
    else if kind = "cdylib" then
      some ("lib" ++ dashToUnderscore base_name ++ ".dylib", base_name ++ ".dylib",
            base_name, "compiled.mach-o.dylib", "com.apple.product-type.library.dynamic",
            false)
    else if kind = "staticlib" then
      some ("lib" ++ dashToUnderscore base_name ++ ".a", "lib" ++ base_name ++ "_static.a",
            base_name ++ "_static", "archive.ar", STATIC_LIB_APPLE_PRODUCT_TYPE, true)
    else none
  sel.map fun t =>
    let cargo_file_name := t.1
    let xcode_file_name := t.2.1
    let xcode_product_name := t.2.2.1
    let file_type := t.2.2.2.1
    let prod_type := t.2.2.2.2.1
    let skip_install := t.2.2.2.2.2
    let compiler_flags :=
      if prod_type = EXECUTABLE_APPLE_PRODUCT_TYPE then "--bin " ++ base_name else "--lib"
    let compiler_flags :=
      if prod_type = EXECUTABLE_APPLE_PRODUCT_TYPE ∧ required_features ≠ "" then
        compiler_flags ++ " --features \x27" ++ required_features ++ "\x27"
      else compiler_flags
    { kind := kind
      base_name := base_name
      cargo_file_name := cargo_file_name
      xcode_product_name := xcode_product_name
      xcode_file_name := xcode_file_name
      compiler_flags := compiler_flags
      file_type := file_type
      prod_type := prod_type
      supported_platforms :=
        if prod_type = STATIC_LIB_APPLE_PRODUCT_TYPE then
          "macosx iphonesimulator iphoneos appletvsimulator appletvos"
        else "macosx"
      skip_install := skip_install }

/-- The target classifier: every (target, recognized kind) pair, in target
order and then declared kind order. -/
def project_targets (p : Package) : List XcodeTarget :=
  p.targets.flatMap fun target =>
    target.kind.filterMap
      (xcodeTargetFor target.name (String.intercalate (",") target.required_features))

/-! ## Identifier cluster per emission target (`products_pbxproj` locals) -/

/-- The product token: allocated from the (file-type, output-file-name) pair. -/
def prodId (p : Package) (t : XcodeTarget) : String :=
  make_id p.id t.file_type t.cargo_file_name

/-- The native-target token, namespaced under the product token. -/
def targetId (p : Package) (t : XcodeTarget) : String :=
  make_id p.id t.file_type (prodId p t)

/-- The per-target configuration-list token. -/
def confListId (p : Package) (t : XcodeTarget) : String :=
  make_id p.id ("<config-list>") (prodId p t)

/-- The per-target Release configuration token. -/
def confReleaseId (p : Package) (t : XcodeTarget) : String :=
  make_id p.id ("<config-release>") (prodId p t)

/-- The per-target Debug configuration token. -/
def confDebugId (p : Package) (t : XcodeTarget) : String :=
  make_id p.id ("<config-debug>") (prodId p t)

/-- The per-target compile-phase token. -/
def compileCargoId (p : Package) (t : XcodeTarget) : String :=
  make_id p.id ("<cargo>") (prodId p t)

/-- The per-target manifest build-file token. -/
def manifestPathBuildObjectId (p : Package) (t : XcodeTarget) : String :=
  make_id p.id ("<cargo-toml>") (prodId p t)

/-! ## Project-wide identifiers (`pbxproj` locals) -/

/-- Token of the main group. -/
def main_group_id (p : Package) : String := make_id p.id ("") ("<root>")

/-- Token of the Products group. -/
def prod_group_id (p : Package) : String := make_id p.id ("") ("Products")

/-- Token of the Frameworks group. -/
def frameworks_group_id (p : Package) : String := make_id p.id ("") ("Frameworks")

/-- Token of the project object. -/
def project_id (p : Package) : String := make_id p.id ("") ("<project>")

/-- Token of the shared build rule. -/
def build_rule_id (p : Package) : String := make_id p.id ("") ("BuildRule")

/-- Token of the shared lipo script phase. -/
def lipo_script_id (p : Package) : String := make_id p.id ("") ("LipoScript")

/-- Token of the project-wide configuration list (local `conf_list_id`). -/
def proj_conf_list_id (p : Package) : String := make_id p.id ("") ("<configuration-list>")

/-- Token of the project-wide Release configuration (local `conf_release_id`). -/
def proj_conf_release_id (p : Package) : String := make_id p.id ("configuration") ("Release")

/-- Token of the project-wide Debug configuration (local `conf_debug_id`). -/
def proj_conf_debug_id (p : Package) : String := make_id p.id ("configuration") ("Debug")

/-- Token of the shared Cargo.toml file reference. -/
def manifest_path_id (p : Package) : String := make_id p.id ("") ("Cargo.toml")

/-- Whether any emission target is a static library (`has_static`). -/
def has_static (p : Package) : Bool :=
  (project_targets p).any fun t => t.prod_type == STATIC_LIB_APPLE_PRODUCT_TYPE
/-- The PBXNativeTarget object for one emission target. -/
def native_target_obj (p : Package) (build_rule_id_a lipo_script_id_a : String)
    (t : XcodeTarget) : XcodeObject :=
  ⟨targetId p t,
  targetId p t ++
  " /* " ++
  t.base_name ++
  "-" ++
  t.kind ++
  " */ = \x7b\n            isa = PBXNativeTarget;\n            buildConfigurationList = " ++
  confListId p t ++
  ";\n            buildPhases = (\n                " ++
  compileCargoId p t ++
  " /* Sources */,\n                " ++
  lipo_script_id_a ++
  " /* Universal Binary lipo */,\n            );\n            buildRules = (\n                " ++
  build_rule_id_a ++
  " /* PBXBuildRule */,\n            );\n            dependencies = (\n            );\n            name = \"" ++
  t.base_name ++
  "-" ++
  t.kind ++
  "\";\n            productName = \"" ++
  t.xcode_file_name ++
  "\";\n            productReference = " ++
  prodId p t ++
  ";\n            productType = \"" ++
  t.prod_type ++
  "\";\n        \x7d;\n        "⟩

/-- The PBXSourcesBuildPhase object for one emission target. -/
def sources_phase_obj (p : Package) (t : XcodeTarget) : XcodeObject :=
  ⟨compileCargoId p t,
  compileCargoId p t ++
  " = \x7b\n                    isa = PBXSourcesBuildPhase;\n                    buildActionMask = 2147483647;\n                    files = (\n                        " ++
  manifestPathBuildObjectId p t ++
  "\n                    );\n                    runOnlyForDeploymentPostprocessing = 0;\n                \x7d;\n                "⟩

/-- The PBXBuildFile object (manifest build file entry carrying the
compiler flags) for one emission target. -/
def buildfile_obj (p : Package) (manifest_path_id_a : String) (t : XcodeTarget) :
    XcodeObject :=
  ⟨manifestPathBuildObjectId p t,
  "\n                " ++
  manifestPathBuildObjectId p t ++
  " /* Cargo.toml in Sources */ = \x7b\n                    isa = PBXBuildFile;\n                    fileRef = " ++
  manifest_path_id_a ++
  " /* Cargo.toml */;\n                    settings = \x7b\n                        COMPILER_FLAGS = \"" ++
  t.compiler_flags ++
  "\"; /* == OTHER_INPUT_FILE_FLAGS */\n                    \x7d;\n                \x7d;\n                "⟩

/-- The body shared by every emitted XCConfigurationList: exactly the two
given configurations, Release listed first, default-visible 0, default name
Release.  Both the per-target lists and the project-wide list use it. -/
def xcconfiguration_list_block (conf_release_id_a conf_debug_id_a : String) : String :=
  "buildConfigurations = (\n                " ++
  conf_release_id_a ++
  " /* Release */,\n                " ++
  conf_debug_id_a ++
  " /* Debug */,\n            );\n            defaultConfigurationIsVisible = 0;\n            defaultConfigurationName = Release;"

/-- The XCConfigurationList object for one emission target. -/
def conf_list_obj (p : Package) (t : XcodeTarget) : XcodeObject :=
  ⟨confListId p t,
  "\n        " ++
  confListId p t ++
  " /* " ++
  t.kind ++
  " */ = \x7b\n            isa = XCConfigurationList;\n            " ++
  xcconfiguration_list_block (confReleaseId p t) (confDebugId p t) ++
  "\n        \x7d;"⟩

/-- The extra install-suppressing settings, present exactly when the
target has `skip_install`. -/
def skip_install_flags_str (skip : Bool) : String :=
  if skip then "SKIP_INSTALL = YES;\n                INSTALL_GROUP = \"\";\n                INSTALL_MODE_FLAG = \"\";\n                INSTALL_OWNER = \"\";" else ""

/-- One XCBuildConfiguration object (Release or Debug) for one emission
target; `dep_file_name_a` is the computed dependency-file name. -/
def build_config_obj (t : XcodeTarget) (dep_file_name_a id_a name_a : String) :
    XcodeObject :=
  ⟨id_a,
  "\n            " ++
  id_a ++
  " /* " ++
  t.kind ++
  " */ = \x7b\n                isa = XCBuildConfiguration;\n                buildSettings = \x7b\n                    PRODUCT_NAME = \"" ++
  t.xcode_product_name ++
  "\";\n                    \"CARGO_XCODE_CARGO_FILE_NAME\" = \"" ++
  t.cargo_file_name ++
  "\";\n                    \"CARGO_XCODE_CARGO_DEP_FILE_NAME\" = \"" ++
  dep_file_name_a ++
  "\";\n                    SUPPORTED_PLATFORMS = \"" ++
  t.supported_platforms ++
  "\";\n                    " ++
  skip_install_flags_str t.skip_install ++
  "\n                \x7d;" ++
  "\n                name = " ++
  name_a ++
  ";" ++
  "\n            \x7d;"⟩

/-- The PBXFileReference object for one emission target product. -/
def product_fileref_obj (p : Package) (t : XcodeTarget) : XcodeObject :=
  ⟨prodId p t,
  "\n        " ++
  prodId p t ++
  " /* " ++
  t.kind ++
  " */ = \x7b\n            isa = PBXFileReference;\n            explicitFileType = \"" ++
  t.file_type ++
  "\";\n            includeInIndex = 0;\n            name = \"" ++
  t.xcode_file_name ++
  "\";\n            sourceTree = BUILT_PRODUCTS_DIR;\n        \x7d;"⟩

/-- One TargetAttributes entry of the project object. -/
def target_attr_item (id_a : String) : String :=
  id_a ++
  " = \x7b\n                        CreatedOnToolsVersion = 9.2;\n                        ProvisioningStyle = Automatic;\n                    \x7d;\n                    "

/-- The shared Cargo.toml PBXFileReference, with the path relative to the
chosen output location (or the literal default). -/
def manifest_fileref_obj (p : Package) (cargo_toml_path_a : String) : XcodeObject :=
  ⟨manifest_path_id p,
  "\n                " ++
  manifest_path_id p ++
  " /* Cargo.toml */ = \x7b\n                    isa = PBXFileReference;\n                    lastKnownFileType = text;\n                    fileEncoding = 4;\n                    name = \"Cargo.toml\";\n                    path = \"" ++
  cargo_toml_path_a ++
  "\";\n                    sourceTree = \"<group>\";\n            \x7d;"⟩

/-- The libresolv system-library file reference, with its fixed literal
identifier (not allocator-derived). -/
def resolv_fileref_obj : XcodeObject :=
  ⟨"ADDEDBA66A6E1", "\n                    /* Rust needs libresolv */\n                    ADDEDBA66A6E1 = \x7b\n                        isa = PBXFileReference; lastKnownFileType = \"sourcecode.text-based-dylib-definition\";\n                        name = libresolv.tbd; path = usr/lib/libresolv.tbd; sourceTree = SDKROOT;\n                    \x7d;\n                "⟩

/-- The group containing the libresolv reference, with its fixed literal
identifier (not allocator-derived). -/
def resolv_group_obj : XcodeObject :=
  ⟨"ADDEDBA66A6E2", "\n                ADDEDBA66A6E2 /* Required for static linking */ = \x7b\n                    isa = PBXGroup;\n                    children = (\n                        ADDEDBA66A6E1\n                    );\n                    name = \"Required for static linking\";\n                    sourceTree = \"<group>\";\n                \x7d;"⟩

/-- The embedded build-script template, before `escape_default`. -/
def build_script_raw : String :=
  "\nset -eu; export PATH=$PATH:~/.cargo/bin:/usr/local/bin;\nif [ \"$\x7bIS_MACCATALYST-NO\x7d\" = YES ]; then\n    CARGO_XCODE_TARGET_TRIPLE=\"$\x7bCARGO_XCODE_TARGET_ARCH\x7d-apple-ios-macabi\"\nelse\n    CARGO_XCODE_TARGET_TRIPLE=\"$\x7bCARGO_XCODE_TARGET_ARCH\x7d-apple-$\x7bCARGO_XCODE_TARGET_OS\x7d\"\nfi\nif [ \"$CARGO_XCODE_TARGET_OS\" != \"darwin\" ]; then\n    PATH=\"$\x7bPATH/\\/Contents\\/Developer\\/Toolchains\\/XcodeDefault.xctoolchain\\/usr\\/bin:/xcode-provided-ld-cant-link-lSystem-for-the-host-build-script:\x7d\"\nfi\nPATH=\"$PATH:/opt/homebrew/bin\" # Rust projects often depend on extra tools like nasm, which Xcode lacks\nif [ \"$CARGO_XCODE_BUILD_MODE\" == release ]; then\n    OTHER_INPUT_FILE_FLAGS=\"$\x7bOTHER_INPUT_FILE_FLAGS\x7d --release\"\nfi\nif command -v rustup &> /dev/null; then\n    if ! rustup target list --installed | egrep -q \"$\x7bCARGO_XCODE_TARGET_TRIPLE\x7d\"; then\n        echo \"warning: this build requires rustup toolchain for $CARGO_XCODE_TARGET_TRIPLE, but it isn\x27t installed\"\n        rustup target add \"$\x7bCARGO_XCODE_TARGET_TRIPLE\x7d\" || echo >&2 \"warning: can\x27t install $CARGO_XCODE_TARGET_TRIPLE\"\n    fi\nfi\nif [ \"$ACTION\" = clean ]; then\n ( set -x; cargo clean --manifest-path=\"$SCRIPT_INPUT_FILE\" $\x7bOTHER_INPUT_FILE_FLAGS\x7d --target=\"$\x7bCARGO_XCODE_TARGET_TRIPLE\x7d\"; );\nelse\n ( set -x; cargo build --manifest-path=\"$SCRIPT_INPUT_FILE\" --features=\"$\x7bCARGO_XCODE_FEATURES:-\x7d\" $\x7bOTHER_INPUT_FILE_FLAGS\x7d --target=\"$\x7bCARGO_XCODE_TARGET_TRIPLE\x7d\"; );\nfi\n# it\x27s too hard to explain Cargo\x27s actual exe path to Xcode build graph, so hardlink to a known-good path instead\nBUILT_SRC=\"$\x7bCARGO_TARGET_DIR\x7d/$\x7bCARGO_XCODE_TARGET_TRIPLE\x7d/$\x7bCARGO_XCODE_BUILD_MODE\x7d/$\x7bCARGO_XCODE_CARGO_FILE_NAME\x7d\"\nln -f -- \"$BUILT_SRC\" \"$SCRIPT_OUTPUT_FILE_0\"\n\n# xcode generates dep file, but for its own path, so append our rename to it\nDEP_FILE_SRC=\"$\x7bCARGO_TARGET_DIR\x7d/$\x7bCARGO_XCODE_TARGET_TRIPLE\x7d/$\x7bCARGO_XCODE_BUILD_MODE\x7d/$\x7bCARGO_XCODE_CARGO_DEP_FILE_NAME\x7d\"\nif [ -f \"$DEP_FILE_SRC\" ]; then\n    DEP_FILE_DST=\"$\x7bDERIVED_FILE_DIR\x7d/$\x7bCARGO_XCODE_TARGET_ARCH\x7d-$\x7bEXECUTABLE_NAME\x7d.d\"\n    cp -f \"$DEP_FILE_SRC\" \"$DEP_FILE_DST\"\n    echo >> \"$DEP_FILE_DST\" \"$SCRIPT_OUTPUT_FILE_0: $BUILT_SRC\"\nfi\n\n# lipo script needs to know all the platform-specific files that have been built\n# archs is in the file name, so that paths don\x27t stay around after archs change\n# must match input for LipoScript\nFILE_LIST=\"$\x7bDERIVED_FILE_DIR\x7d/$\x7bARCHS\x7d-$\x7bEXECUTABLE_NAME\x7d.xcfilelist\"\ntouch \"$FILE_LIST\"\nif ! egrep -q \"$SCRIPT_OUTPUT_FILE_0\" \"$FILE_LIST\" ; then\n    echo >> \"$FILE_LIST\" \"$SCRIPT_OUTPUT_FILE_0\"\nfi\n"

/-- The settings shared by the two project-wide configurations. -/
def common_build_settings (p : Package) : String :=
  "\n            ALWAYS_SEARCH_USER_PATHS = NO;\n            SUPPORTS_MACCATALYST = YES;\n            CARGO_TARGET_DIR = \"$(PROJECT_TEMP_DIR)/cargo_target\"; /* for cargo */\n            CARGO_XCODE_FEATURES = \"\"; /* configure yourself */\n            \"CARGO_XCODE_TARGET_ARCH[arch=arm64*]\" = \"aarch64\";\n            \"CARGO_XCODE_TARGET_ARCH[arch=x86_64*]\" = \"x86_64\"; /* catalyst adds h suffix */\n            \"CARGO_XCODE_TARGET_ARCH[arch=i386]\" = \"i686\";\n            \"CARGO_XCODE_TARGET_OS[sdk=macosx*]\" = \"darwin\";\n            \"CARGO_XCODE_TARGET_OS[sdk=iphonesimulator*]\" = \"ios-sim\";\n            \"CARGO_XCODE_TARGET_OS[sdk=iphoneos*]\" = \"ios\";\n            \"CARGO_XCODE_TARGET_OS[sdk=appletvsimulator*]\" = \"tvos\";\n            \"CARGO_XCODE_TARGET_OS[sdk=appletvos*]\" = \"tvos\";\n            PRODUCT_NAME = \"" ++
  p.name ++
  "\";\n            SDKROOT = macosx;\n        "

/-! ## Per-target section accumulation (`products_pbxproj`) -/

/-- Pair every emission target with its computed dependency-file name;
`none` models the panic of the `unwrap` in the source when the path
operation fails for some target. -/
def annotateDeps : List XcodeTarget → Option (List (XcodeTarget × String))
  | [] => some []
  | t :: ts =>
    match depFileName t.cargo_file_name, annotateDeps ts with
    | some d, some rest => some ((t, d) :: rest)
    | _, _ => none

/-- The per-target object-graph builder: one loop iteration per emission
target, each pushing its native target, compile phase, configuration list,
Release and Debug configurations, build file, product id and product file
reference, in input order. -/
def products_pbxproj (p : Package)
    (manifest_path_id_a build_rule_id_a lipo_script_id_a : String) :
    Option XcodeSections :=
  (annotateDeps (project_targets p)).map fun tds =>
    ⟨tds.map fun td => buildfile_obj p manifest_path_id_a td.1,
     tds.map fun td => product_fileref_obj p td.1,
     tds.map fun td => native_target_obj p build_rule_id_a lipo_script_id_a td.1,
     tds.map fun td => prodId p td.1,
     tds.flatMap fun td =>
       [sources_phase_obj p td.1, conf_list_obj p td.1,
        build_config_obj td.1 td.2 (confReleaseId p td.1) ("Release"),
        build_config_obj td.1 td.2 (confDebugId p td.1) ("Debug")]⟩

/-! ## Relative path of the manifest (`pathdiff::diff_paths`) -/

/-- Whether a path string is absolute. -/
def pathIsAbsolute (s : String) : Bool :=
  s.data.head? == some '/'

/-- Path components for the relative-path computation: the root marker and a
leading current-dir marker are kept, other empty/`.` components dropped. -/
def diffComponents (s : String) : List String :=
  let raw := (splitChar '/' s.data).map fun g => String.mk g
  let rest := raw.filter fun c => ¬(c = "" ∨ c = ".")
  if pathIsAbsolute s then "/" :: rest
  else if raw.head? = some "." then "." :: rest
  else rest

/-- The component-matching loop of `pathdiff::diff_paths`; the flag records
whether the output is still empty (prefix components still being skipped). -/
def diff_paths_loop : Bool → List String → List String → Option (List String)
  | _, [], [] => some []
  | _, a :: as, [] => some (a :: as)
  | _, [], _ :: bs => (diff_paths_loop false [] bs).map fun r => ".." :: r
  | empty, a :: as, b :: bs =>
    if empty ∧ a = b then diff_paths_loop empty as bs
    else if b = "." then (diff_paths_loop false as bs).map fun r => a :: r
    else if b = ".." then none
    else some (".." :: ((bs.map fun _ => "..") ++ a :: as))

/-- Join diff components back into a path string, as collecting them into a
`PathBuf` and displaying it would. -/
def joinComponents (comps : List String) : String :=
  match comps with
  | "/" :: rest => "/" ++ String.intercalate ("/") rest
  | _ => String.intercalate ("/") comps

/-- Model of `pathdiff::diff_paths(path, base)`. -/
def diff_paths (path base : String) : Option String :=
  if (pathIsAbsolute path ≠ pathIsAbsolute base) then
    (if pathIsAbsolute path then some path else none)
  else
    (diff_paths_loop true (diffComponents path) (diffComponents base)).map joinComponents

/-- The path written into the Cargo.toml file reference: relative to the
chosen output directory, or the literal default; `none` models the `unwrap`
panic when `diff_paths` fails. -/
def cargo_toml_path (p : Package) (output_dir : Option String) : Option String :=
  match output_dir with
  | some d => diff_paths p.manifest_path d
  | none => some ("Cargo.toml")

/-! ## Project-wide aggregation (`pbxproj` locals) -/

/-- Modelled from the spec: `env!("CARGO_PKG_VERSION")` bakes the version of
cargo-xcode itself (from its Cargo.toml, which is not under src/) into the
binary at compile time; it is a constant independent of all inputs, so any
fixed value preserves every claim. -/
def crate_version : String := "0.0.0"

/-- The embedded build script after `str::escape_default`, as spliced into
the build rule. -/
def build_script : String := escapeDefault build_script_raw

/-- Concatenation of a list of strings, as collecting an iterator of string
fragments into a `String` does. -/
def strConcat : List String → String
  | [] => ""
  | s :: rest => s ++ strConcat rest

/-- Render an id list as the comma-newline reference list used for group
children and target lists. -/
def refs_str (ids : List String) : String :=
  strConcat (ids.map fun id => id ++ ",\n")

/-- Concatenate the rendered definitions of a list of objects. -/
def objs_str (objs : List XcodeObject) : String :=
  strConcat (objs.map fun o => o.defn)

/-- The TargetAttributes entries for all native targets, in target order. -/
def target_attrs_str (sections : XcodeSections) : String :=
  strConcat (sections.targets.map fun o => target_attr_item o.id)

/-- The file references appended by the assembler only when a static library
exists: the libresolv reference. -/
def pbxproj_static_filerefs (p : Package) : List XcodeObject :=
  if has_static p then [resolv_fileref_obj] else []

/-- The extra groups of the project: exactly the libresolv group, present
if and only if a static-library emission target exists. -/
def pbxproj_groups (p : Package) : List XcodeObject :=
  if has_static p then [resolv_group_obj] else []

/-- The children of the Frameworks group: exactly the libresolv group id,
present if and only if a static-library emission target exists. -/
def frameworks_folder_refs (p : Package) : List String :=
  if has_static p then ["ADDEDBA66A6E2"] else []

/-- The children of the main group: manifest reference, Products group,
Frameworks group. -/
def main_folder_refs (p : Package) : List String :=
  [manifest_path_id p, prod_group_id p, frameworks_group_id p]

/-- The full PBXFileReference section contents, in assembly order: the
per-target product references, the manifest reference, then the conditional
libresolv reference. -/
def pbxproj_filereference_objs (p : Package) (output_dir : Option String) :
    Option (List XcodeObject) :=
  match products_pbxproj p (manifest_path_id p) (build_rule_id p) (lipo_script_id p),
        cargo_toml_path p output_dir with
  | some sections, some path =>
    some (sections.filereference ++ [manifest_fileref_obj p path]
          ++ pbxproj_static_filerefs p)
  | _, _ => none

/-- The serialized project file, assembled from the sections and the
project-wide objects exactly as the `tpl` format string does. -/
def pbxproj_body (p : Package) (sections : XcodeSections) (cargo_toml_path_a : String) :
    String :=
  "// !$*UTF8*$!\n\x7b\n    /* generated with cargo-xcode " ++
  crate_version ++
  " */\n    archiveVersion = 1;\n    classes = \x7b\n    \x7d;\n    objectVersion = 53;\n    objects = \x7b\n/* Begin PBXBuildFile section */\n        " ++
  objs_str sections.buildfile ++
  "\n/* End PBXBuildFile section */\n\n/* Begin PBXBuildRule section */\n        " ++
  build_rule_id p ++
  " /* PBXBuildRule */ = \x7b\n            isa = PBXBuildRule;\n            compilerSpec = com.apple.compilers.proxy.script;\n            dependencyFile = \"$(DERIVED_FILE_DIR)/$(CARGO_XCODE_TARGET_ARCH)-$(EXECUTABLE_NAME).d\";\n            filePatterns = \"*/Cargo.toml\"; /* must contain asterisk */\n            fileType = pattern.proxy;\n            inputFiles = ();\n            isEditable = 0;\n            name = \"Cargo project build\";\n            outputFiles = (\n                \"$(BUILT_PRODUCTS_DIR)/$(CARGO_XCODE_TARGET_ARCH)-$(EXECUTABLE_NAME)\",\n            );\n            script = \"# generated with cargo-xcode " ++
  crate_version ++
  "\\n" ++
  build_script ++
  "\";\n        \x7d;\n/* End PBXBuildRule section */\n\n/* Begin PBXFileReference section */\n        " ++
  objs_str (sections.filereference ++ [manifest_fileref_obj p cargo_toml_path_a] ++ pbxproj_static_filerefs p) ++
  "\n/* End PBXFileReference section */\n\n/* Begin PBXGroup section */\n        " ++
  frameworks_group_id p ++
  " /* Frameworks */ = \x7b\n            isa = PBXGroup;\n            children = (\n                " ++
  refs_str (frameworks_folder_refs p) ++
  "\n            );\n            name = Frameworks;\n            sourceTree = \"<group>\";\n        \x7d;\n\n        " ++
  objs_str (pbxproj_groups p) ++
  "\n\n        " ++
  prod_group_id p ++
  " /* Products */ = \x7b\n            isa = PBXGroup;\n            children = (\n                " ++
  refs_str sections.product_ids ++
  "\n            );\n            name = Products;\n            sourceTree = \"<group>\";\n        \x7d;\n\n        " ++
  main_group_id p ++
  " /* Main */ = \x7b\n            isa = PBXGroup;\n            children = (\n                " ++
  refs_str (main_folder_refs p) ++
  "\n            );\n            sourceTree = \"<group>\";\n        \x7d;\n\n/* End PBXGroup section */\n\n/* Begin PBXNativeTarget section */\n        " ++
  objs_str sections.targets ++
  "\n/* End PBXNativeTarget section */\n\n        " ++
  objs_str sections.other ++
  "\n\n        " ++
  lipo_script_id p ++
  " /* LipoScript */ = \x7b\n            name = \"Universal Binary lipo\";\n            isa = PBXShellScriptBuildPhase;\n            buildActionMask = 2147483647;\n            files = ();\n            inputFileListPaths = ();\n            inputPaths = (\n                \"$(DERIVED_FILE_DIR)/$(ARCHS)-$(EXECUTABLE_NAME).xcfilelist\",\n            );\n            outputFileListPaths = ();\n            outputPaths = (\n                \"$(BUILT_PRODUCTS_DIR)/$(EXECUTABLE_PATH)\"\n            );\n            runOnlyForDeploymentPostprocessing = 0;\n            shellPath = /bin/sh;\n            shellScript = \"# generated with cargo-xcode " ++
  crate_version ++
  "\\nset -eux; cat \\\"$DERIVED_FILE_DIR/$ARCHS-$EXECUTABLE_NAME.xcfilelist\\\" | tr \x27\\\\n\x27 \x27\\\\0\x27 | xargs -0 lipo -create -output \\\"$BUILT_PRODUCTS_DIR/$EXECUTABLE_PATH\\\"\";\n        \x7d;\n\n        " ++
  proj_conf_list_id p ++
  " = \x7b\n            isa = XCConfigurationList;\n            " ++
  xcconfiguration_list_block (proj_conf_release_id p) (proj_conf_debug_id p) ++
  "\n        \x7d;\n\n        " ++
  proj_conf_release_id p ++
  " = \x7b\n            isa = XCBuildConfiguration;\n            buildSettings = \x7b\n                " ++
  common_build_settings p ++
  "\n                \"CARGO_XCODE_BUILD_MODE\" = \"release\"; /* for xcode scripts */\n            \x7d;\n            name = Release;\n        \x7d;\n\n        " ++
  proj_conf_debug_id p ++
  " = \x7b\n            isa = XCBuildConfiguration;\n            buildSettings = \x7b\n                " ++
  common_build_settings p ++
  "\n                \"CARGO_XCODE_BUILD_MODE\" = \"debug\"; /* for xcode scripts */\n                ONLY_ACTIVE_ARCH = YES;\n            \x7d;\n            name = Debug;\n        \x7d;\n\n        " ++
  project_id p ++
  " = \x7b\n            isa = PBXProject;\n            attributes = \x7b\n                LastUpgradeCheck = 1300;\n                TargetAttributes = \x7b\n                    " ++
  target_attrs_str sections ++
  "                \x7d;\n            \x7d;\n            buildConfigurationList = " ++
  proj_conf_list_id p ++
  ";\n            compatibilityVersion = \"Xcode 11.4\";\n             developmentRegion = en;\n            hasScannedForEncodings = 0;\n            knownRegions = (\n                    en,\n                    Base,\n            );\n            mainGroup = " ++
  main_group_id p ++
  ";\n            productRefGroup = " ++
  prod_group_id p ++
  " /* Products */;\n            projectDirPath = \"\";\n            projectRoot = \"\";\n            targets = (\n                " ++
  refs_str (sections.targets.map fun o => o.id) ++
  "\n            );\n        \x7d;\n\n    \x7d;\n    rootObject = " ++
  project_id p ++
  ";\n\x7d\n    "

/-- The project-file generation entry point: classify, build sections,
compute the manifest path, then render the template.  `none` models the two
panics (`unwrap` on the dependency-file name, `unwrap` on `diff_paths`);
the Rust function otherwise always returns `Ok`. -/
def pbxproj (p : Package) (output_dir : Option String) : Option String :=
  match products_pbxproj p (manifest_path_id p) (build_rule_id p) (lipo_script_id p),
        cargo_toml_path p output_dir with
  | some sections, some path => some (pbxproj_body p sections path)
  | _, _ => none

/-! ## Model of the file-write step (`write_pbxproj`)

The source runs: `prepare_project_path` (a `create_dir_all`), then `pbxproj`
(pure), then `File::create` (which truncates an existing file), then one
`write_all`.  The model tracks only the project file's content (`prev` on
entry) and injects one failure; a failing `write_all` may have written any
prefix of the data (`std::io::Write::write_all` documents that data may
have been partially written when it errors). -/

/-- The failure injected into one run of the write step. -/
inductive WriteFailure where
  /-- No failure: the run completes. -/
  | success : WriteFailure
  /-- `fs::create_dir_all` fails (before the content is generated). -/
  | createDir : WriteFailure
  /-- `fs::File::create` fails; the file is not opened, nothing changes. -/
  | createFile : WriteFailure
  /-- `write_all` fails after `k` bytes: the file was truncated by
  `File::create` and holds a prefix of the data. -/
  | writeAll (k : Nat) : WriteFailure
deriving DecidableEq, Repr

/-- Model of `Generator::write_pbxproj`: the resulting project-file content
and whether the run succeeded. -/
def write_pbxproj_model (p : Package) (output_dir : Option String)
    (prev : Option String) (f : WriteFailure) : Option String × Bool :=
  match f with
  | .createDir => (prev, false)
  | f' =>
    match pbxproj p output_dir with
    | none => (prev, false)
    | some data =>
      match f' with
      | .createFile => (prev, false)
      | .writeAll k => (some (strTake data k), false)
      | _ => (some data, true)

/-! ## Helper lemmas -/

theorem string_eta (s : String) : String.mk s.data = s := by
  obtain ⟨d⟩ := s; rfl

theorem length_flatMap_byteHexChars (l : List Nat) :
    (l.flatMap byteHexChars).length = 2 * l.length := by
  induction l with
  | nil => simp
  | cons a t ih => simp [byteHexChars, ih]; omega

theorem sha1_length (m : List Nat) : (sha1 m).length = 20 := by
  simp [sha1, be4bytes]

theorem sha1_bytes_lt (m : List Nat) : ∀ b ∈ sha1 m, b < 256 := by
  intro b hb
  simp only [sha1, be4bytes, List.mem_append, List.mem_cons, List.not_mem_nil,
    or_false] at hb
  rcases hb with ((h|h|h|h)|(h|h|h|h)|(h|h|h|h)|(h|h|h|h))|(h|h|h|h) <;> omega

theorem hexChar_mem_digits : ∀ n, n < 16 → hexChar n ∈ ("0123456789ABCDEF").data := by
  decide

theorem make_id_eq (seed ns n : String) :
    make_id seed ns n = "CA60" ++ String.mk
      (((sha1 (utf8Bytes seed ++ utf8Bytes ns ++ [0] ++ utf8Bytes n)).take 10).flatMap
        byteHexChars) := rfl

theorem make_id_length (seed ns n : String) : (make_id seed ns n).length = 24 := by
  rw [make_id_eq, String.length_append]
  have h1 : (((sha1 (utf8Bytes seed ++ utf8Bytes ns ++ [0] ++ utf8Bytes n)).take 10)).length
      = 10 := by
    rw [List.length_take, sha1_length]
    omega
  show 4 + (String.mk _).length = 24
  have h2 := length_flatMap_byteHexChars
    ((sha1 (utf8Bytes seed ++ utf8Bytes ns ++ [0] ++ utf8Bytes n)).take 10)
  simp only [String.length] at *
  omega

theorem make_id_hex_structure (seed ns n : String) :
    ∃ rest, make_id seed ns n = "CA60" ++ rest ∧ rest.length = 20 ∧
      ∀ c ∈ rest.data, c ∈ ("0123456789ABCDEF").data := by
  refine ⟨_, make_id_eq seed ns n, ?_, ?_⟩
  · have h2 := length_flatMap_byteHexChars
      ((sha1 (utf8Bytes seed ++ utf8Bytes ns ++ [0] ++ utf8Bytes n)).take 10)
    have h1 : ((sha1 (utf8Bytes seed ++ utf8Bytes ns ++ [0] ++ utf8Bytes n)).take 10).length
        = 10 := by
      rw [List.length_take, sha1_length]
      omega
    show (String.mk _).length = 20
    simp only [String.length] at *
    omega
  · intro c hc
    simp only [String.mk] at hc
    rw [List.mem_flatMap] at hc
    obtain ⟨b, hb, hcb⟩ := hc
    have hlt : b < 256 :=
      sha1_bytes_lt _ b (List.mem_of_mem_take hb)
    have h16a : b / 16 < 16 := by omega
    have h16b : b % 16 < 16 := by omega
    simp only [byteHexChars, List.mem_cons, List.not_mem_nil, or_false] at hcb
    rcases hcb with rfl | rfl
    · exact hexChar_mem_digits _ h16a
    · exact hexChar_mem_digits _ h16b

/-! ## Concrete inputs used by witnesses and counterexamples -/

/-- A package with one executable target. -/
def pkg_bin : Package :=
  ⟨"path+file:///demo#foo@1.2.0", "foo", ⟨1, 2, 0⟩, "/demo/Cargo.toml",
   [⟨"foo", ["bin"], []⟩]⟩

/-- A package with one static-library target (and kind order staticlib then
cdylib on the same target). -/
def pkg_static : Package :=
  ⟨"path+file:///demo#mylib@2.0.0", "mylib", ⟨2, 0, 0⟩, "/demo/Cargo.toml",
   [⟨"my-lib", ["staticlib", "cdylib"], []⟩]⟩

/-- A package with one dynamic-library target and major version 2. -/
def pkg_cdylib : Package :=
  ⟨"path+file:///demo#dyl@2.0.0", "dyl", ⟨2, 0, 0⟩, "/demo/Cargo.toml",
   [⟨"dyl", ["cdylib"], []⟩]⟩

/-- Same as `pkg_bin` but with a different display name and no targets:
used to exhibit name dependence of the output. -/
def pkg_name_a : Package := ⟨"pid", "alpha", ⟨1, 0, 0⟩, "/demo/Cargo.toml", []⟩

/-- Identical to `pkg_name_a` except for the display name. -/
def pkg_name_b : Package := ⟨"pid", "beta", ⟨1, 0, 0⟩, "/demo/Cargo.toml", []⟩

/-- Identical to `pkg_bin` except for the version. -/
def pkg_bin_v9 : Package :=
  ⟨"path+file:///demo#foo@1.2.0", "foo", ⟨9, 9, 9⟩, "/demo/Cargo.toml",
   [⟨"foo", ["bin"], []⟩]⟩

/-! ## C1: the kind mapping of the classifier -/

/-- C1: for every package target, kind bin named n maps to product type
com.apple.product-type.tool with build-tool output file name n; cdylib maps
to output file name lib + n with hyphens underscored + .dylib; staticlib
maps to lib + n with hyphens underscored + .a with install-skip true; every
other kind yields no EmissionTarget; and `project_targets` applies exactly
this per-kind classification to every target of the package. -/
theorem claim_C1 (name feats : String) :
    ((xcodeTargetFor name feats ("bin")).map fun xt => (xt.prod_type, xt.cargo_file_name))
      = some ("com.apple.product-type.tool", name)
    ∧ ((xcodeTargetFor name feats ("cdylib")).map fun xt => xt.cargo_file_name)
      = some ("lib" ++ dashToUnderscore name ++ ".dylib")
    ∧ ((xcodeTargetFor name feats ("staticlib")).map fun xt =>
        (xt.cargo_file_name, xt.skip_install))
      = some ("lib" ++ dashToUnderscore name ++ ".a", true)
    ∧ (∀ kind, kind ≠ "bin" → kind ≠ "cdylib" → kind ≠ "staticlib" →
        xcodeTargetFor name feats kind = none)
    ∧ (∀ p : Package, project_targets p = p.targets.flatMap fun t =>
        t.kind.filterMap
          (xcodeTargetFor t.name (String.intercalate (",") t.required_features))) := by
  refine ⟨?_, ?_, ?_, ?_, fun p => rfl⟩
  · simp [xcodeTargetFor, EXECUTABLE_APPLE_PRODUCT_TYPE]
  · simp [xcodeTargetFor]
  · simp [xcodeTargetFor, STATIC_LIB_APPLE_PRODUCT_TYPE]
  · intro kind h1 h2 h3
    simp [xcodeTargetFor, h1, h2, h3]

/-- Witness for C1 at concrete inputs, with the non-recognized-kind
hypotheses discharged on the kind example. -/
theorem claim_C1_witness :
    (((xcodeTargetFor ("foo-bar") ("") ("cdylib")).map fun xt => xt.cargo_file_name)
      = some ("lib" ++ dashToUnderscore ("foo-bar") ++ ".dylib"))
    ∧ xcodeTargetFor ("foo-bar") ("") ("example") = none :=
  ⟨(claim_C1 ("foo-bar") ("")).2.1,
   (claim_C1 ("foo-bar") ("")).2.2.2.1 ("example") (by decide) (by decide) (by decide)⟩

/-! ## C2: shape and purity of the identifier allocator -/

/-- C2: every allocated token is 24 characters, the constant prefix CA60
followed by 20 uppercase hexadecimal digits, and the token is a pure
function of the (package-identity seed, namespace, name) triple: packages
with the same identity yield the same token regardless of their target
lists (so adding, removing or reordering other targets cannot change it). -/
theorem claim_C2 (seed ns n : String) :
    (make_id seed ns n).length = 24
    ∧ (∃ rest, make_id seed ns n = "CA60" ++ rest ∧ rest.length = 20
        ∧ ∀ c ∈ rest.data, c ∈ ("0123456789ABCDEF").data)
    ∧ (∀ p q : Package, p.id = q.id →
        generator_make_id p ns n = generator_make_id q ns n) := by
  refine ⟨make_id_length seed ns n, make_id_hex_structure seed ns n, ?_⟩
  intro p q h
  simp [generator_make_id, h]

/-- Witness for C2: the shape facts at a concrete triple, and purity across
two packages sharing an identity but with different target lists. -/
theorem claim_C2_witness :
    (make_id ("path+file:///demo#foo@1.2.0") ("ns") ("nm")).length = 24
    ∧ generator_make_id ⟨"i", "a", ⟨1, 0, 0⟩, "m", [⟨"t", ["bin"], []⟩]⟩ ("ns") ("nm")
      = generator_make_id ⟨"i", "b", ⟨2, 0, 0⟩, "m", []⟩ ("ns") ("nm") :=
  ⟨(claim_C2 ("path+file:///demo#foo@1.2.0") ("ns") ("nm")).1,
   (claim_C2 ("x") ("ns") ("nm")).2.2 ⟨"i", "a", ⟨1, 0, 0⟩, "m", [⟨"t", ["bin"], []⟩]⟩
     ⟨"i", "b", ⟨2, 0, 0⟩, "m", []⟩ rfl⟩

/-! ## Substring machinery for statements about the emitted text -/

theorem isPrefixOf_iff_exists (a : List Char) : ∀ b, a.isPrefixOf b = true ↔ ∃ t, b = a ++ t := by
  induction a with
  | nil => intro b; simp [List.isPrefixOf]
  | cons x xs ih =>
    intro b
    cases b with
    | nil => simp [List.isPrefixOf]
    | cons y ys =>
      simp only [List.isPrefixOf, Bool.and_eq_true, beq_iff_eq, ih, List.cons_append,
        List.cons.injEq]
      constructor
      · rintro ⟨rfl, t, rfl⟩; exact ⟨t, rfl, rfl⟩
      · rintro ⟨t, rfl, rfl⟩; exact ⟨rfl, t, rfl⟩

theorem containsSubAux_iff_exists (n : List Char) : ∀ h,
    containsSubAux n h = true ↔ ∃ pre post, h = pre ++ (n ++ post) := by
  intro h
  induction h with
  | nil =>
    simp only [containsSubAux, List.isEmpty_iff]
    constructor
    · rintro rfl; exact ⟨[], [], rfl⟩
    · rintro ⟨pre, post, hp⟩
      cases pre <;> cases n <;> simp_all
  | cons c t ih =>
    simp only [containsSubAux, Bool.or_eq_true, isPrefixOf_iff_exists, ih]
    constructor
    · rintro (⟨post, hp⟩ | ⟨pre, post, hp⟩)
      · exact ⟨[], post, by simp [hp]⟩
      · exact ⟨c :: pre, post, by simp [hp]⟩
    · rintro ⟨pre, post, hp⟩
      cases pre with
      | nil => exact Or.inl ⟨post, by simpa using hp⟩
      | cons d ds =>
        simp only [List.cons_append, List.cons.injEq] at hp
        exact Or.inr ⟨ds, post, hp.2⟩

theorem containsSubstring_iff_exists (hay needle : String) :
    containsSubstring hay needle = true ↔
      ∃ pre post, hay.data = pre ++ (needle.data ++ post) := by
  simpa [containsSubstring] using containsSubAux_iff_exists needle.data hay.data

theorem substr_self (n : String) : containsSubstring n n = true := by
  rw [containsSubstring_iff_exists]
  exact ⟨[], [], by simp⟩

theorem substr_append_left (a b n : String) (h : containsSubstring a n = true) :
    containsSubstring (a ++ b) n = true := by
  rw [containsSubstring_iff_exists] at h ⊢
  obtain ⟨pre, post, hp⟩ := h
  exact ⟨pre, post ++ b.data, by simp [String.data_append, hp]⟩

theorem substr_append_right (a b n : String) (h : containsSubstring b n = true) :
    containsSubstring (a ++ b) n = true := by
  rw [containsSubstring_iff_exists] at h ⊢
  obtain ⟨pre, post, hp⟩ := h
  exact ⟨a.data ++ pre, post, by simp [String.data_append, hp]⟩

theorem substr_trans (a b n : String) (h1 : containsSubstring a b = true)
    (h2 : containsSubstring b n = true) : containsSubstring a n = true := by
  rw [containsSubstring_iff_exists] at h1 h2 ⊢
  obtain ⟨p1, q1, hp1⟩ := h1
  obtain ⟨p2, q2, hp2⟩ := h2
  exact ⟨p1 ++ p2, q2 ++ q1, by simp [hp1, hp2]⟩

theorem substr_of_data_eq (hay n : String) (pre post : List Char)
    (h : hay.data = pre ++ (n.data ++ post)) : containsSubstring hay n = true := by
  rw [containsSubstring_iff_exists]
  exact ⟨pre, post, h⟩

theorem substr_strConcat_mem (l : List String) (s : String) (h : s ∈ l) :
    containsSubstring (strConcat l) s = true := by
  induction l with
  | nil => cases h
  | cons a t ih =>
    rcases List.mem_cons.mp h with rfl | hmem
    · exact substr_append_left _ _ _ (substr_self s)
    · exact substr_append_right _ _ _ (ih hmem)

theorem substr_objs_str_mem (l : List XcodeObject) (o : XcodeObject) (h : o ∈ l) :
    containsSubstring (objs_str l) o.defn = true :=
  substr_strConcat_mem _ _ (List.mem_map.mpr ⟨o, h, rfl⟩)

/-! ## Structure of the accumulated sections -/

theorem annotateDeps_some : ∀ (ts : List XcodeTarget) (l : List (XcodeTarget × String)),
    annotateDeps ts = some l →
    l.map Prod.fst = ts ∧ ∀ td ∈ l, depFileName td.1.cargo_file_name = some td.2 := by
  intro ts
  induction ts with
  | nil =>
    intro l h
    simp only [annotateDeps, Option.some.injEq] at h
    subst h
    simp
  | cons t ts ih =>
    intro l h
    simp only [annotateDeps] at h
    cases hd : depFileName t.cargo_file_name with
    | none => rw [hd] at h; exact absurd h (by simp)
    | some d =>
      rw [hd] at h
      cases ha : annotateDeps ts with
      | none => rw [ha] at h; exact absurd h (by simp)
      | some rest =>
        rw [ha] at h
        simp only [Option.some.injEq] at h
        subst h
        obtain ⟨hmap, hdep⟩ := ih rest ha
        refine ⟨by simp [hmap], ?_⟩
        intro td htd
        rcases List.mem_cons.mp htd with rfl | hmem
        · exact hd
        · exact hdep td hmem

theorem annotateDeps_mem (ts : List XcodeTarget) (l : List (XcodeTarget × String))
    (h : annotateDeps ts = some l) (t : XcodeTarget) (ht : t ∈ ts) :
    ∃ d, (t, d) ∈ l ∧ depFileName t.cargo_file_name = some d := by
  obtain ⟨hmap, hdep⟩ := annotateDeps_some ts l h
  rw [← hmap] at ht
  obtain ⟨td, htd, h1⟩ := List.mem_map.mp ht
  refine ⟨td.2, ?_, ?_⟩
  · have : (t, td.2) = td := by rw [← h1]
    rw [this]; exact htd
  · rw [← hdep td htd, h1]

theorem annotateDeps_isSome (ts : List XcodeTarget)
    (h : ∀ t ∈ ts, ∃ d, depFileName t.cargo_file_name = some d) :
    ∃ l, annotateDeps ts = some l := by
  induction ts with
  | nil => exact ⟨[], rfl⟩
  | cons t ts ih =>
    obtain ⟨d, hd⟩ := h t (List.mem_cons_self t ts)
    obtain ⟨l, hl⟩ := ih fun x hx => h x (List.mem_cons_of_mem t hx)
    exact ⟨(t, d) :: l, by simp only [annotateDeps, hd, hl]⟩

theorem substr_group_right3 (X a b c : String) :
    containsSubstring (((X ++ a) ++ b) ++ c) ((a ++ b) ++ c) = true := by
  apply substr_of_data_eq _ _ X.data []
  simp [String.data_append]

/-- The serialized output contains the rendered per-target objects section. -/
theorem body_contains_other (p : Package) (sections : XcodeSections) (path : String) :
    containsSubstring (pbxproj_body p sections path) (objs_str sections.other) = true := by
  unfold pbxproj_body
  iterate 31 (with_reducible apply substr_append_left)
  with_reducible exact substr_append_right _ _ _ (substr_self _)

/-- The serialized output contains the rendered file-reference section. -/
theorem body_contains_filereference (p : Package) (sections : XcodeSections) (path : String) :
    containsSubstring (pbxproj_body p sections path)
      (objs_str (sections.filereference ++ [manifest_fileref_obj p path]
        ++ pbxproj_static_filerefs p)) = true := by
  unfold pbxproj_body
  iterate 49 (with_reducible apply substr_append_left)
  with_reducible exact substr_append_right _ _ _ (substr_self _)

/-- The serialized output contains the project-wide configuration-list body. -/
theorem body_contains_proj_conf_block (p : Package) (sections : XcodeSections) (path : String) :
    containsSubstring (pbxproj_body p sections path)
      (xcconfiguration_list_block (proj_conf_release_id p) (proj_conf_debug_id p)) = true := by
  unfold pbxproj_body
  iterate 23 (with_reducible apply substr_append_left)
  with_reducible exact substr_append_right _ _ _ (substr_self _)

/-- Each per-target configuration-list object contains the shared two-entry
configuration block for its own Release/Debug tokens. -/
theorem conf_list_obj_contains_block (p : Package) (t : XcodeTarget) :
    containsSubstring (conf_list_obj p t).defn
      (xcconfiguration_list_block (confReleaseId p t) (confDebugId p t)) = true := by
  unfold conf_list_obj
  iterate 1 (with_reducible apply substr_append_left)
  with_reducible exact substr_append_right _ _ _ (substr_self _)

/-- Each build-configuration object carries its name setting line. -/
theorem build_config_obj_contains_name (t : XcodeTarget) (d i n : String) :
    containsSubstring (build_config_obj t d i n).defn
      (("\n                name = " ++ n) ++ ";") = true := by
  unfold build_config_obj
  apply substr_append_left
  exact substr_group_right3 _ _ _ _

/-! ## C6: ordering of product references and target references -/

/-- C6: in the accumulated sections (from which the Products group children
and the project target list are rendered in order), the product-id sequence
and the native-target-id sequence are exactly the per-target tokens of the
classifier output, in input target discovery order (kinds in declared
order); the rendered reference lists follow those sequences verbatim. -/
theorem claim_C6 (p : Package) (m b l : String) (s : XcodeSections)
    (h : products_pbxproj p m b l = some s) :
    s.product_ids = (project_targets p).map (fun t => prodId p t)
    ∧ (s.targets.map fun o => o.id) = (project_targets p).map (fun t => targetId p t)
    ∧ refs_str s.product_ids
      = strConcat (((project_targets p).map (fun t => prodId p t)).map fun i => i ++ ",\n")
    ∧ refs_str (s.targets.map fun o => o.id)
      = strConcat (((project_targets p).map (fun t => targetId p t)).map fun i => i ++ ",\n") := by
  unfold products_pbxproj at h
  cases ha : annotateDeps (project_targets p) with
  | none => rw [ha] at h; exact absurd h (by simp)
  | some tds =>
    rw [ha] at h
    simp only [Option.map_some', Option.some.injEq] at h
    obtain ⟨hmap, _⟩ := annotateDeps_some _ _ ha
    subst h
    have h1 : (tds.map fun td => prodId p td.1) = (project_targets p).map fun t => prodId p t := by
      rw [← hmap, List.map_map]; rfl
    have h2 : ((tds.map fun td => native_target_obj p b l td.1).map fun o => o.id)
        = (project_targets p).map fun t => targetId p t := by
      rw [← hmap, List.map_map, List.map_map]; rfl
    exact ⟨h1, h2, by rw [refs_str, h1], by rw [refs_str, h2]⟩

/-- Witness for C6: the ordering facts at a concrete two-kind package. -/
theorem claim_C6_witness :
    ((products_pbxproj pkg_static (manifest_path_id pkg_static) (build_rule_id pkg_static)
        (lipo_script_id pkg_static)).getD ⟨[], [], [], [], []⟩).product_ids
      = (project_targets pkg_static).map (fun t => prodId pkg_static t) :=
  (claim_C6 pkg_static (manifest_path_id pkg_static) (build_rule_id pkg_static)
    (lipo_script_id pkg_static) _ rfl).1

/-! ## C4: conditionality of the libresolv reference -/

/-- C4: the file-reference section contains the libresolv reference, the
group section contains its containing group, and the Frameworks group's
children list that group, each if and only if at least one static-library
emission target exists; and when one exists the serialized output text
contains the libresolv reference. -/
theorem claim_C4 (p : Package) (od : Option String) (frs : List XcodeObject)
    (h : pbxproj_filereference_objs p od = some frs) :
    ((∃ o ∈ frs, o.id = "ADDEDBA66A6E1") ↔ has_static p = true)
    ∧ ((∃ o ∈ pbxproj_groups p, o.id = "ADDEDBA66A6E2") ↔ has_static p = true)
    ∧ ("ADDEDBA66A6E2" ∈ frameworks_folder_refs p ↔ has_static p = true)
    ∧ (has_static p = true ↔ ∃ t ∈ project_targets p,
        t.prod_type = STATIC_LIB_APPLE_PRODUCT_TYPE)
    ∧ (∀ out, pbxproj p od = some out → has_static p = true →
        containsSubstring out ("libresolv.tbd") = true) := by
  unfold pbxproj_filereference_objs at h
  cases hs : products_pbxproj p (manifest_path_id p) (build_rule_id p) (lipo_script_id p) with
  | none => rw [hs] at h; exact absurd h (by simp)
  | some sections =>
    rw [hs] at h
    cases hc : cargo_toml_path p od with
    | none => rw [hc] at h; exact absurd h (by simp)
    | some path =>
      rw [hc] at h
      simp only [Option.some.injEq] at h
      subst h
      have hfr_ids : ∀ o ∈ sections.filereference, ∃ k n, o.id = make_id p.id k n := by
        intro o ho
        unfold products_pbxproj at hs
        cases ha : annotateDeps (project_targets p) with
        | none => rw [ha] at hs; exact absurd hs (by simp)
        | some tds =>
          rw [ha] at hs
          simp only [Option.map_some', Option.some.injEq] at hs
          subst hs
          simp only [List.mem_map] at ho
          obtain ⟨td, _, rfl⟩ := ho
          exact ⟨td.1.file_type, td.1.cargo_file_name, rfl⟩
      constructor
      · constructor
        · rintro ⟨o, ho, hid⟩
          by_contra hns
          have hstat : pbxproj_static_filerefs p = [] := by
            unfold pbxproj_static_filerefs
            simp [Bool.not_eq_true] at hns
            simp [hns]
          rw [hstat] at ho
          simp only [List.append_nil, List.mem_append, List.mem_singleton] at ho
          rcases ho with ho | rfl
          · obtain ⟨k, n, hk⟩ := hfr_ids o ho
            have := make_id_length p.id k n
            rw [← hk, hid] at this
            exact absurd this (by decide)
          · have hid2 : manifest_path_id p = "ADDEDBA66A6E1" := hid
            have h24 : (manifest_path_id p).length = 24 :=
              make_id_length p.id ("") ("Cargo.toml")
            rw [hid2] at h24
            exact absurd h24 (by decide)
        · intro hstat
          refine ⟨resolv_fileref_obj, ?_, rfl⟩
          have : pbxproj_static_filerefs p = [resolv_fileref_obj] := by
            unfold pbxproj_static_filerefs; simp [hstat]
          rw [this]
          simp
      constructor
      · unfold pbxproj_groups
        cases hstat : has_static p <;> simp [hstat, resolv_group_obj]
      constructor
      · unfold frameworks_folder_refs
        cases hstat : has_static p <;> simp [hstat]
      constructor
      · simp [has_static, List.any_eq_true, beq_iff_eq]
      · intro out hout hstat
        unfold pbxproj at hout
        rw [hs, hc] at hout
        simp only [Option.some.injEq] at hout
        subst hout
        apply substr_trans _ (objs_str (sections.filereference ++ [manifest_fileref_obj p path]
          ++ pbxproj_static_filerefs p))
        · exact body_contains_filereference p sections path
        · apply substr_trans _ resolv_fileref_obj.defn
          · apply substr_objs_str_mem
            have : pbxproj_static_filerefs p = [resolv_fileref_obj] := by
              unfold pbxproj_static_filerefs; simp [hstat]
            rw [this]
            simp
          · decide

/-- Witness for C4 at a concrete static-library package. -/
theorem claim_C4_witness :
    "ADDEDBA66A6E2" ∈ frameworks_folder_refs pkg_static ↔ has_static pkg_static = true :=
  (claim_C4 pkg_static none _ rfl).2.2.1

/-! ## C9: the libresolv identifiers are fixed literals -/

/-- C9: when a static-library emission target exists, the libresolv file
reference and its group carry the fixed 13-character literal identifiers
ADDEDBA66A6E1 and ADDEDBA66A6E2 for every package, while every other
file-reference object carries an allocator-derived token. -/
theorem claim_C9 (p : Package) (od : Option String) (frs : List XcodeObject)
    (h : pbxproj_filereference_objs p od = some frs) (hstat : has_static p = true) :
    resolv_fileref_obj ∈ frs
    ∧ resolv_fileref_obj.id = "ADDEDBA66A6E1"
    ∧ resolv_group_obj ∈ pbxproj_groups p
    ∧ resolv_group_obj.id = "ADDEDBA66A6E2"
    ∧ ("ADDEDBA66A6E1").length = 13 ∧ ("ADDEDBA66A6E2").length = 13
    ∧ (∀ o ∈ frs, o.id = "ADDEDBA66A6E1" ∨ ∃ k n, o.id = make_id p.id k n) := by
  unfold pbxproj_filereference_objs at h
  cases hs : products_pbxproj p (manifest_path_id p) (build_rule_id p) (lipo_script_id p) with
  | none => rw [hs] at h; exact absurd h (by simp)
  | some sections =>
    rw [hs] at h
    cases hc : cargo_toml_path p od with
    | none => rw [hc] at h; exact absurd h (by simp)
    | some path =>
      rw [hc] at h
      simp only [Option.some.injEq] at h
      subst h
      have hstatrefs : pbxproj_static_filerefs p = [resolv_fileref_obj] := by
        unfold pbxproj_static_filerefs; simp [hstat]
      have hfr_ids : ∀ o ∈ sections.filereference, ∃ k n, o.id = make_id p.id k n := by
        intro o ho
        unfold products_pbxproj at hs
        cases ha : annotateDeps (project_targets p) with
        | none => rw [ha] at hs; exact absurd hs (by simp)
        | some tds =>
          rw [ha] at hs
          simp only [Option.map_some', Option.some.injEq] at hs
          subst hs
          simp only [List.mem_map] at ho
          obtain ⟨td, _, rfl⟩ := ho
          exact ⟨td.1.file_type, td.1.cargo_file_name, rfl⟩
      have hgroups : pbxproj_groups p = [resolv_group_obj] := by
        unfold pbxproj_groups; simp [hstat]
      refine ⟨by rw [hstatrefs]; simp, rfl, by rw [hgroups]; simp, rfl,
        by decide, by decide, ?_⟩
      intro o ho
      rw [hstatrefs] at ho
      simp only [List.mem_append, List.mem_singleton] at ho
      rcases ho with (ho | rfl) | rfl
      · exact Or.inr (hfr_ids o ho)
      · exact Or.inr ⟨"", "Cargo.toml", rfl⟩
      · exact Or.inl rfl

/-- Witness for C9 at a concrete static-library package. -/
theorem claim_C9_witness :
    resolv_fileref_obj.id = "ADDEDBA66A6E1" ∧ resolv_group_obj ∈ pbxproj_groups pkg_static :=
  ⟨(claim_C9 pkg_static none _ rfl (by decide)).2.1,
   (claim_C9 pkg_static none _ rfl (by decide)).2.2.1⟩

/-! ## C5: every configuration list pairs Release and Debug -/

/-- C5: the serialized output contains, for the project-wide configuration
list and for each emission target's configuration list, the shared
configuration-list body listing exactly the two configurations (the
target's Release token then its Debug token) with defaultConfigurationIsVisible
0 and defaultConfigurationName Release; and the two referenced build
configurations are emitted with name lines Release and Debug respectively. -/
theorem claim_C5 (p : Package) (od : Option String) (out : String)
    (h : pbxproj p od = some out) :
    containsSubstring out
      (xcconfiguration_list_block (proj_conf_release_id p) (proj_conf_debug_id p)) = true
    ∧ ∀ t ∈ project_targets p,
        containsSubstring out
          (xcconfiguration_list_block (confReleaseId p t) (confDebugId p t)) = true
        ∧ ∃ d, depFileName t.cargo_file_name = some d
          ∧ containsSubstring out (build_config_obj t d (confReleaseId p t) ("Release")).defn
              = true
          ∧ containsSubstring (build_config_obj t d (confReleaseId p t) ("Release")).defn
              (("\n                name = " ++ "Release") ++ ";") = true
          ∧ containsSubstring out (build_config_obj t d (confDebugId p t) ("Debug")).defn
              = true
          ∧ containsSubstring (build_config_obj t d (confDebugId p t) ("Debug")).defn
              (("\n                name = " ++ "Debug") ++ ";") = true := by
  unfold pbxproj at h
  cases hs : products_pbxproj p (manifest_path_id p) (build_rule_id p) (lipo_script_id p) with
  | none => rw [hs] at h; exact absurd h (by simp)
  | some sections =>
    rw [hs] at h
    cases hc : cargo_toml_path p od with
    | none => rw [hc] at h; exact absurd h (by simp)
    | some path =>
      rw [hc] at h
      simp only [Option.some.injEq] at h
      subst h
      refine ⟨body_contains_proj_conf_block p sections path, ?_⟩
      intro t ht
      unfold products_pbxproj at hs
      cases ha : annotateDeps (project_targets p) with
      | none => rw [ha] at hs; exact absurd hs (by simp)
      | some tds =>
        rw [ha] at hs
        simp only [Option.map_some', Option.some.injEq] at hs
        obtain ⟨d, htd, hdep⟩ := annotateDeps_mem _ _ ha t ht
        have hother : sections.other = tds.flatMap fun td =>
            [sources_phase_obj p td.1, conf_list_obj p td.1,
             build_config_obj td.1 td.2 (confReleaseId p td.1) ("Release"),
             build_config_obj td.1 td.2 (confDebugId p td.1) ("Debug")] := by
          rw [← hs]
        have hmem_conf : conf_list_obj p t ∈ sections.other := by
          rw [hother]
          exact List.mem_flatMap.mpr ⟨(t, d), htd, by simp⟩
        have hmem_rel : build_config_obj t d (confReleaseId p t) ("Release")
            ∈ sections.other := by
          rw [hother]
          exact List.mem_flatMap.mpr ⟨(t, d), htd, by simp⟩
        have hmem_deb : build_config_obj t d (confDebugId p t) ("Debug")
            ∈ sections.other := by
          rw [hother]
          exact List.mem_flatMap.mpr ⟨(t, d), htd, by simp⟩
        have hout_other : containsSubstring (pbxproj_body p sections path)
            (objs_str sections.other) = true := body_contains_other p sections path
        refine ⟨?_, d, hdep, ?_, build_config_obj_contains_name t d _ ("Release"), ?_,
          build_config_obj_contains_name t d _ ("Debug")⟩
        · exact substr_trans _ _ _ hout_other
            (substr_trans _ _ _ (substr_objs_str_mem _ _ hmem_conf)
              (conf_list_obj_contains_block p t))
        · exact substr_trans _ _ _ hout_other (substr_objs_str_mem _ _ hmem_rel)
        · exact substr_trans _ _ _ hout_other (substr_objs_str_mem _ _ hmem_deb)

/-- The emission target the classifier produces for the binary package used
by the witnesses. -/
def xt_bin : XcodeTarget :=
  ⟨"bin", "foo", "foo", "foo", "foo", "--bin foo", "compiled.mach-o.executable",
   "com.apple.product-type.tool", "macosx", false⟩

/-- Witness for C5 at a concrete binary package and its emission target. -/
theorem claim_C5_witness :
    containsSubstring ((pbxproj pkg_bin none).getD (""))
      (xcconfiguration_list_block (proj_conf_release_id pkg_bin) (proj_conf_debug_id pkg_bin))
      = true
    ∧ containsSubstring ((pbxproj pkg_bin none).getD (""))
      (xcconfiguration_list_block (confReleaseId pkg_bin xt_bin) (confDebugId pkg_bin xt_bin))
      = true :=
  ⟨(claim_C5 pkg_bin none _ rfl).1,
   ((claim_C5 pkg_bin none _ rfl).2 xt_bin (by decide)).1⟩

/-! ## C3: determinism of project-file generation -/

/-- C3 (amended): the output is a pure function of the package identity,
display name, manifest path, target list and output-directory choice; the
version plays no role.  Two runs over packages agreeing on those fields
produce identical output. -/
theorem claim_C3 (p q : Package) (od : Option String)
    (hid : p.id = q.id) (hname : p.name = q.name)
    (hmanifest : p.manifest_path = q.manifest_path) (htargets : p.targets = q.targets) :
    pbxproj p od = pbxproj q od := by
  obtain ⟨i1, n1, v1, m1, t1⟩ := p
  obtain ⟨i2, n2, v2, m2, t2⟩ := q
  simp only at hid hname hmanifest htargets
  subst hid hname hmanifest htargets
  rfl

/-- Witness for C3: identical fields except the version give byte-identical
output at a concrete package. -/
theorem claim_C3_witness :
    pbxproj pkg_bin none = pbxproj pkg_bin_v9 none :=
  claim_C3 pkg_bin pkg_bin_v9 none rfl rfl rfl rfl

theorem string_append_cancel_left (a b c : String) : (a ++ b = a ++ c) ↔ b = c := by
  constructor
  · intro h
    apply String.ext
    have := congrArg String.data h
    simp only [String.data_append, List.append_cancel_left_eq] at this
    exact this
  · intro h; rw [h]

/-- Counterexample to C3 as stated: two packages with identical identity,
version, manifest path, target list and output-directory choice but
different display names produce different output (the display name feeds
the PRODUCT_NAME build setting). -/
theorem claim_C3_counterexample :
    pkg_name_a.id = pkg_name_b.id ∧ pkg_name_a.version = pkg_name_b.version
    ∧ pkg_name_a.manifest_path = pkg_name_b.manifest_path
    ∧ pkg_name_a.targets = pkg_name_b.targets
    ∧ pbxproj pkg_name_a none ≠ pbxproj pkg_name_b none := by
  refine ⟨rfl, rfl, rfl, rfl, ?_⟩
  intro h
  have h1 : pbxproj_body pkg_name_a ⟨[], [], [], [], []⟩ ("Cargo.toml")
      = pbxproj_body pkg_name_b ⟨[], [], [], [], []⟩ ("Cargo.toml") := Option.some.inj h
  unfold pbxproj_body at h1
  simp only [pkg_name_a, pkg_name_b, build_rule_id, lipo_script_id, proj_conf_list_id,
    proj_conf_release_id, proj_conf_debug_id, project_id, main_group_id, prod_group_id,
    frameworks_group_id, manifest_path_id, common_build_settings, objs_str, refs_str,
    strConcat, target_attrs_str, main_folder_refs, frameworks_folder_refs, pbxproj_groups,
    pbxproj_static_filerefs, has_static, project_targets, manifest_fileref_obj,
    List.map_nil, List.flatMap_nil, List.any_nil, List.map_cons, Bool.false_eq_true,
    if_false, List.append_nil, List.nil_append] at h1
  simp only [String.append_assoc, List.append_cancel_left_eq, string_append_cancel_left]
    at h1
  exact absurd
    (congrArg (fun s : String => s.data.head?) h1 : (some 'a' : Option Char) = some 'b')
    (by decide)

/-! ## C7: no compatibility-version setting is emitted -/

/-- C7 (amended): the generator never emits a compatibility-version
setting derived from the package version: the emitted sections and the
serialized output are completely independent of the package's semantic
version, whatever its major component. -/
theorem claim_C7 (p : Package) (v : SemVer) (od : Option String) (m b l : String) :
    pbxproj p od = pbxproj (Package.mk p.id p.name v p.manifest_path p.targets) od
    ∧ products_pbxproj p m b l
      = products_pbxproj (Package.mk p.id p.name v p.manifest_path p.targets) m b l := by
  obtain ⟨i, n, v0, mp, ts⟩ := p
  exact ⟨rfl, rfl⟩

set_option maxHeartbeats 4000000 in
/-- Counterexample to C7 as stated: a dynamic-library target in a package
with major version 2 gets build configurations without any
compatibility-version setting (no emitted per-target object mentions the
COMPATIBILITY_VERSION build setting key). -/
theorem claim_C7_counterexample :
    pkg_cdylib.version.major ≠ 1
    ∧ ((project_targets pkg_cdylib).map fun t => t.prod_type)
      = ["com.apple.product-type.library.dynamic"]
    ∧ (((products_pbxproj pkg_cdylib (manifest_path_id pkg_cdylib)
          (build_rule_id pkg_cdylib) (lipo_script_id pkg_cdylib)).getD
            ⟨[], [], [], [], []⟩).other.all fun o =>
        ¬containsSubstring o.defn ("COMPATIBILITY_VERSION")) = true := by
  refine ⟨by decide, by decide, by decide⟩

/-! ## C8: the file-write step -/

/-- C8 (amended): the output text is fully built in memory before the
project file itself is created, so a failure of directory creation or of
file creation leaves either no new file or the previous file untouched;
but the project directory is created before the text is generated, the
existing file is truncated when opened, and a failure during the single
write may leave an empty or partially written file behind. -/
theorem claim_C8 (p : Package) (od : Option String) (prev : Option String)
    (data : String) (k : Nat) (h : pbxproj p od = some data) :
    write_pbxproj_model p od prev .success = (some data, true)
    ∧ write_pbxproj_model p od prev .createDir = (prev, false)
    ∧ write_pbxproj_model p od prev .createFile = (prev, false)
    ∧ write_pbxproj_model p od prev (.writeAll k) = (some (strTake data k), false) := by
  refine ⟨?_, rfl, ?_, ?_⟩ <;> simp [write_pbxproj_model, h]

/-- Witness for C8: the preserved guarantees at a concrete package. -/
theorem claim_C8_witness :
    write_pbxproj_model pkg_bin none (some ("OLD")) .createFile = (some ("OLD"), false) :=
  (claim_C8 pkg_bin none (some ("OLD")) ((pbxproj pkg_bin none).getD ("")) 0 rfl).2.2.1

/-- Counterexample to C8 as stated: with a previous project file present, a
write failure right after the file is created leaves a new empty file —
neither no-new-file nor the previous file unchanged, refuting the
no-partial-write guarantee. -/
theorem claim_C8_counterexample :
    write_pbxproj_model pkg_bin none (some ("OLD")) (.writeAll 0) = (some (""), false)
    ∧ some ("") ≠ some ("OLD")
    ∧ some ("") ≠ pbxproj pkg_bin none := by
  refine ⟨rfl, by decide, ?_⟩
  intro h
  have h2 : Option.map (fun s : String => s.data.head?) (some (""))
      = Option.map (fun s : String => s.data.head?) (pbxproj pkg_bin none) :=
    congrArg _ h
  exact absurd (h2 : some (none : Option Char) = some (some '/')) (by decide)

/-! ## C10: the dependency-file computation cannot fail -/

theorem splitChar_no_sep : ∀ (cs : List Char), '/' ∉ cs → splitChar '/' cs = [cs] := by
  intro cs h
  induction cs with
  | nil => rfl
  | cons c rest ih =>
    simp only [List.mem_cons, not_or] at h
    simp [splitChar, ih h.2, Ne.symm h.1]

theorem pathFileName_single (s : String) (h0 : s ≠ "") (h1 : '/' ∉ s.data)
    (h2 : s ≠ ".") (h3 : s ≠ "..") : pathFileName s = some s := by
  unfold pathFileName pathComponents
  rw [splitChar_no_sep s.data h1]
  simp [string_eta, h0, h2, h3]

theorem depFileName_single (s : String) (h0 : s ≠ "") (h1 : '/' ∉ s.data)
    (h2 : s ≠ ".") (h3 : s ≠ "..") : depFileName s = some (fileStem s ++ ".d") := by
  unfold depFileName
  rw [pathFileName_single s h0 h1 h2 h3]

theorem dashToUnderscore_no_slash (s : String) (h : '/' ∉ s.data) :
    '/' ∉ (dashToUnderscore s).data := by
  simp only [dashToUnderscore]
  intro hc
  simp only [String.mk, List.mem_map] at hc
  obtain ⟨c, hcm, hceq⟩ := hc
  by_cases hd : c = '-'
  · rw [if_pos hd] at hceq; exact absurd hceq (by decide)
  · rw [if_neg hd] at hceq; exact h (hceq ▸ hcm)

theorem libname_facts (x e : String) (hx : '/' ∉ x.data) (he : '/' ∉ e.data) :
    ("lib" ++ x ++ e) ≠ "" ∧ '/' ∉ ("lib" ++ x ++ e).data
    ∧ ("lib" ++ x ++ e) ≠ "." ∧ ("lib" ++ x ++ e) ≠ ".." := by
  have hdata : ("lib" ++ x ++ e).data = 'l' :: 'i' :: 'b' :: (x.data ++ e.data) := by
    simp [String.data_append]
  refine ⟨?_, ?_, ?_, ?_⟩
  · intro hEq
    have := congrArg String.data hEq
    rw [hdata] at this
    exact absurd this (by simp [show ("" : String).data = [] from rfl])
  · rw [hdata]
    simp only [List.mem_cons, List.mem_append, not_or]
    exact ⟨by decide, by decide, by decide, hx, he⟩
  · intro hEq
    have := congrArg String.data hEq
    rw [hdata] at this
    exact absurd this (by simp [show ("." : String).data = ['.'] from rfl])
  · intro hEq
    have := congrArg String.data hEq
    rw [hdata] at this
    exact absurd this (by simp [show (".." : String).data = ['.', '.'] from rfl])

theorem depFileName_of_classifier (name feats kind : String) (xt : XcodeTarget)
    (h0 : name ≠ "") (h1 : '/' ∉ name.data) (h2 : name ≠ ".") (h3 : name ≠ "..")
    (hxt : xcodeTargetFor name feats kind = some xt) :
    depFileName xt.cargo_file_name = some (fileStem xt.cargo_file_name ++ ".d") := by
  by_cases k1 : kind = "bin"
  · simp only [xcodeTargetFor, k1, if_pos, Option.map_some', Option.some.injEq] at hxt
    subst hxt
    exact depFileName_single name h0 h1 h2 h3
  · by_cases k2 : kind = "cdylib"
    · simp [xcodeTargetFor, k1, k2] at hxt
      subst hxt
      obtain ⟨f0, f1, f2, f3⟩ := libname_facts (dashToUnderscore name) (".dylib")
        (dashToUnderscore_no_slash name h1) (by decide)
      exact depFileName_single _ f0 f1 f2 f3
    · by_cases k3 : kind = "staticlib"
      · simp [xcodeTargetFor, k1, k2, k3] at hxt
        subst hxt
        obtain ⟨f0, f1, f2, f3⟩ := libname_facts (dashToUnderscore name) (".a")
          (dashToUnderscore_no_slash name h1) (by decide)
        exact depFileName_single _ f0 f1 f2 f3
      · simp [xcodeTargetFor, k1, k2, k3] at hxt

/-- C10 (amended): for every emission target produced by the classifier
from a target whose name is non-empty, contains no path separator, and is
not the special component `.` or `..`, the dependency-file computation
succeeds and yields the output file name's stem followed by `.d`; for every
package all of whose target names satisfy this, the section builder (whose
source unwraps that computation) succeeds. -/
theorem claim_C10 (name feats kind : String) (xt : XcodeTarget)
    (h0 : name ≠ "") (h1 : '/' ∉ name.data) (h2 : name ≠ ".") (h3 : name ≠ "..")
    (hxt : xcodeTargetFor name feats kind = some xt) :
    depFileName xt.cargo_file_name = some (fileStem xt.cargo_file_name ++ ".d")
    ∧ ∀ (p : Package) (m b l : String),
        (∀ t ∈ p.targets, t.name ≠ "" ∧ '/' ∉ t.name.data ∧ t.name ≠ "." ∧ t.name ≠ "..") →
        (products_pbxproj p m b l).isSome = true := by
  refine ⟨depFileName_of_classifier name feats kind xt h0 h1 h2 h3 hxt, ?_⟩
  intro p m b l hgood
  have hall : ∀ t ∈ project_targets p, ∃ d, depFileName t.cargo_file_name = some d := by
    intro t ht
    obtain ⟨tgt, htgt, hkt⟩ := List.mem_flatMap.mp ht
    obtain ⟨k, _, heq⟩ := List.mem_filterMap.mp hkt
    obtain ⟨g0, g1, g2, g3⟩ := hgood tgt htgt
    exact ⟨_, depFileName_of_classifier tgt.name _ k t g0 g1 g2 g3 heq⟩
  obtain ⟨L, hL⟩ := annotateDeps_isSome (project_targets p) hall
  unfold products_pbxproj
  rw [hL]
  rfl

/-- Witness for C10 at a concrete hyphenated cdylib target. -/
theorem claim_C10_witness :
    depFileName ((xcodeTargetFor ("foo-bar") ("") ("cdylib")).getD xt_bin).cargo_file_name
      = some (fileStem ((xcodeTargetFor ("foo-bar") ("") ("cdylib")).getD
          xt_bin).cargo_file_name ++ ".d") :=
  (claim_C10 ("foo-bar") ("") ("cdylib") _ (by decide) (by decide) (by decide) (by decide)
    rfl).1

/-- Counterexample to C10 as stated: the name `..` is non-empty and has no
path separator, yet the classifier's bin emission target for it makes the
dependency-file computation fail (the source would panic on `unwrap`). -/
theorem claim_C10_counterexample :
    (".." : String) ≠ "" ∧ '/' ∉ (".." : String).data
    ∧ ((xcodeTargetFor ("..") ("") ("bin")).map fun xt => depFileName xt.cargo_file_name)
      = some none := by
  refine ⟨by decide, by decide, by decide⟩
